import Mathlib

/-!
# Book Finder (`src/src/App.jsx`): a shallow embedding of the `App` component

The component keeps nine pieces of React state, two `localStorage` entries and
issues one kind of HTTP request.  Every handler of the component is embedded
as a pure function on an explicit state; the asynchronous `searchBooks` is
split at its single `await` into the part that runs before the request and
the part that runs when the request settles.

JavaScript strings are modelled by `String` (sequences of Unicode scalar
values, so a lone surrogate code unit is not representable), the one
JavaScript number that the component formats (`cover_i`) is a safe integer,
where a number is its integer and prints in decimal, and the platform
functions the component calls (`trim`, `encodeURIComponent`, `JSON.parse`,
`JSON.stringify`) are embedded from their ECMAScript definitions.
`String.prototype.toLowerCase` is a parameter of `saveToHistory`: nothing
proved here depends on which function it is.
-/

namespace BookFinder

/-! ## Platform functions -/

/-- ECMAScript `WhiteSpace` and `LineTerminator` code points: the characters
`String.prototype.trim` strips. -/
def isJsWhiteSpace (c : Char) : Bool :=
  let n := c.toNat
  n == 0x09 || n == 0x0A || n == 0x0B || n == 0x0C || n == 0x0D || n == 0x20 ||
  n == 0xA0 || n == 0x1680 || (0x2000 ≤ n && n ≤ 0x200A) || n == 0x2028 ||
  n == 0x2029 || n == 0x202F || n == 0x205F || n == 0x3000 || n == 0xFEFF

/-- The method `String.prototype.trim` on the list of characters. -/
def trimChars (cs : List Char) : List Char :=
  ((cs.dropWhile isJsWhiteSpace).reverse.dropWhile isJsWhiteSpace).reverse

/-- The method `String.prototype.trim`. -/
def trim (s : String) : String := String.mk (trimChars s.data)

/-- Upper-case hexadecimal digit of a number below 16. -/
def hexDigitUpper (d : Nat) : Char :=
  if d < 10 then Char.ofNat (48 + d) else Char.ofNat (55 + d)

/-- Lower-case hexadecimal digit of a number below 16. -/
def hexDigitLower (d : Nat) : Char :=
  if d < 10 then Char.ofNat (48 + d) else Char.ofNat (87 + d)

/-- UTF-8 octets of a code point. -/
def utf8Octets (n : Nat) : List Nat :=
  if n < 0x80 then [n]
  else if n < 0x800 then [0xC0 + n / 64, 0x80 + n % 64]
  else if n < 0x10000 then [0xE0 + n / 4096, 0x80 + (n / 64) % 64, 0x80 + n % 64]
  else [0xF0 + n / 262144, 0x80 + (n / 4096) % 64, 0x80 + (n / 64) % 64, 0x80 + n % 64]

/-- The characters `encodeURIComponent` leaves as they are: ASCII letters,
decimal digits and the marks `- _ . ! ~ * ' ( )`. -/
def isUriUnreserved (c : Char) : Bool :=
  let n := c.toNat
  (65 ≤ n && n ≤ 90) || (97 ≤ n && n ≤ 122) || (48 ≤ n && n ≤ 57) ||
  n == 45 || n == 95 || n == 46 || n == 33 || n == 126 || n == 42 || n == 39 ||
  n == 40 || n == 41

/-- One character under `encodeURIComponent`. -/
def encodeURIChar (c : Char) : List Char :=
  if isUriUnreserved c then [c]
  else (utf8Octets c.toNat).flatMap
    (fun o => ['%', hexDigitUpper (o / 16), hexDigitUpper (o % 16)])

/-- The function `encodeURIComponent`.  It throws on a lone surrogate only, which `String`
cannot hold, so the embedding is total. -/
def encodeURIComponent (s : String) : String := String.mk (s.data.flatMap encodeURIChar)

/-- One character under the ECMAScript `QuoteJSONString` operation. -/
def quoteJSONChar (c : Char) : List Char :=
  let n := c.toNat
  if n == 34 then [Char.ofNat 92, Char.ofNat 34]
  else if n == 92 then [Char.ofNat 92, Char.ofNat 92]
  else if n == 8 then [Char.ofNat 92, 'b']
  else if n == 12 then [Char.ofNat 92, 'f']
  else if n == 10 then [Char.ofNat 92, 'n']
  else if n == 13 then [Char.ofNat 92, 'r']
  else if n == 9 then [Char.ofNat 92, 't']
  else if n < 32 then [Char.ofNat 92, 'u', '0', '0', hexDigitLower (n / 16), hexDigitLower (n % 16)]
  else [c]

/-- The result of `JSON.stringify` on one string. -/
def quoteJSONString (s : String) : List Char :=
  Char.ofNat 34 :: (s.data.flatMap quoteJSONChar ++ [Char.ofNat 34])

/-- The result of `JSON.stringify` on an array of strings (no indentation argument). -/
def JSONstringify (xs : List String) : String :=
  String.mk ('[' :: ((xs.map quoteJSONString).intersperse [',']).flatten ++ [']'])

/-- A value produced by `JSON.parse`.  A number keeps its lexeme: its
floating-point value plays no part in the component. -/
inductive Json where
  | null
  | bool (b : Bool)
  | number (lexeme : String)
  | string (s : String)
  | array (elems : List Json)
  | object (members : List (String × Json))

/-- JSON insignificant white space: space, tab, line feed, carriage return. -/
def isJsonWs (c : Char) : Bool :=
  c.toNat == 32 || c.toNat == 9 || c.toNat == 10 || c.toNat == 13

/-- Drops JSON white space. -/
def skipWs (cs : List Char) : List Char := cs.dropWhile isJsonWs

/-- Value of a hexadecimal digit. -/
def hexVal (c : Char) : Option Nat :=
  let n := c.toNat
  if 48 ≤ n ∧ n ≤ 57 then some (n - 48)
  else if 65 ≤ n ∧ n ≤ 70 then some (n - 55)
  else if 97 ≤ n ∧ n ≤ 102 then some (n - 87)
  else none

/-- Value of four hexadecimal digits. -/
def hex4 (a b c d : Char) : Option Nat :=
  match hexVal a, hexVal b, hexVal c, hexVal d with
  | some x, some y, some z, some w => some (x * 4096 + y * 256 + z * 16 + w)
  | _, _, _, _ => none

/-- The character a single-letter JSON escape stands for. -/
def jsonEscape (e : Char) : Option Char :=
  let n := e.toNat
  if n == 34 then some (Char.ofNat 34)
  else if n == 92 then some (Char.ofNat 92)
  else if n == 47 then some '/'
  else if e == 'b' then some (Char.ofNat 8)
  else if e == 'f' then some (Char.ofNat 12)
  else if e == 'n' then some (Char.ofNat 10)
  else if e == 'r' then some (Char.ofNat 13)
  else if e == 't' then some (Char.ofNat 9)
  else none

/-- The code point of a `\uXXXX` escape of value `n`, looking ahead for the low
half of a surrogate pair; an unpaired surrogate has no `Char` and is read as
U+FFFD. -/
def unicodeEscape (n : Nat) (rest : List Char) : Char × List Char :=
  if 0xD800 ≤ n ∧ n < 0xDC00 then
    match rest with
    | bs :: u :: a :: b :: c :: d :: rest2 =>
      if bs.toNat == 92 ∧ u == 'u' then
        match hex4 a b c d with
        | some m =>
          if 0xDC00 ≤ m ∧ m < 0xE000 then
            (Char.ofNat (0x10000 + (n - 0xD800) * 1024 + (m - 0xDC00)), rest2)
          else (Char.ofNat 0xFFFD, rest)
        | none => (Char.ofNat 0xFFFD, rest)
      else (Char.ofNat 0xFFFD, rest)
    | _ => (Char.ofNat 0xFFFD, rest)
  else if 0xDC00 ≤ n ∧ n < 0xE000 then (Char.ofNat 0xFFFD, rest)
  else (Char.ofNat n, rest)

/-- The rest of a JSON string after its opening quote: the decoded string and
the input after the closing quote. -/
def parseStringBody : Nat → List Char → List Char → Option (String × List Char)
  | 0, _, _ => none
  | _ + 1, [], _ => none
  | fuel + 1, c :: rest, acc =>
    if c.toNat == 34 then some (String.mk acc.reverse, rest)
    else if c.toNat == 92 then
      match rest with
      | [] => none
      | e :: rest2 =>
        if e == 'u' then
          match rest2 with
          | a :: b :: c2 :: d :: rest3 =>
            match hex4 a b c2 d with
            | some n =>
              let r := unicodeEscape n rest3
              parseStringBody fuel r.2 (r.1 :: acc)
            | none => none
          | _ => none
        else
          match jsonEscape e with
          | some x => parseStringBody fuel rest2 (x :: acc)
          | none => none
    else if c.toNat < 32 then none
    else parseStringBody fuel rest (c :: acc)

/-- Whether a character is a decimal digit. -/
def isDigit (c : Char) : Bool := 48 ≤ c.toNat && c.toNat ≤ 57

/-- A run of one or more digits. -/
def digits1 (cs : List Char) : Option (List Char × List Char) :=
  match cs.takeWhile isDigit with
  | [] => none
  | ds => some (ds, cs.dropWhile isDigit)

/-- The integer part of a JSON number: `0`, or a non-zero digit and digits. -/
def parseInt (cs : List Char) : Option (List Char × List Char) :=
  match cs with
  | [] => none
  | c :: rest =>
    if c == '0' then some (['0'], rest)
    else if isDigit c then some (c :: rest.takeWhile isDigit, rest.dropWhile isDigit)
    else none

/-- The optional fraction of a JSON number. -/
def parseFrac (cs : List Char) : Option (List Char × List Char) :=
  match cs with
  | '.' :: rest =>
    match digits1 rest with
    | some (ds, rest2) => some ('.' :: ds, rest2)
    | none => none
  | _ => some ([], cs)

/-- The optional exponent of a JSON number. -/
def parseExp (cs : List Char) : Option (List Char × List Char) :=
  match cs with
  | e :: rest =>
    if e == 'e' ∨ e == 'E' then
      match rest with
      | s :: rest2 =>
        if s == '+' ∨ s == '-' then
          match digits1 rest2 with
          | some (ds, rest3) => some (e :: s :: ds, rest3)
          | none => none
        else
          match digits1 rest with
          | some (ds, rest3) => some (e :: ds, rest3)
          | none => none
      | [] => none
    else some ([], cs)
  | [] => some ([], cs)

/-- A JSON number: its lexeme and the input after it. -/
def parseNumber (cs : List Char) : Option (String × List Char) :=
  let sign : List Char × List Char :=
    match cs with
    | '-' :: rest => (['-'], rest)
    | _ => ([], cs)
  match parseInt sign.2 with
  | none => none
  | some (i, r1) =>
    match parseFrac r1 with
    | none => none
    | some (f, r2) =>
      match parseExp r2 with
      | none => none
      | some (e, r3) => some (String.mk (sign.1 ++ i ++ f ++ e), r3)

/-- Reads the given literal off the front of the input. -/
def expectLit (lit : List Char) (cs : List Char) : Option (List Char) :=
  if lit.isPrefixOf cs then some (cs.drop lit.length) else none

mutual
/-- One JSON value, after optional white space. -/
def parseValue : Nat → List Char → Option (Json × List Char)
  | 0, _ => none
  | fuel + 1, cs =>
    match skipWs cs with
    | [] => none
    | c :: rest =>
      if c == 'n' then (expectLit ['u', 'l', 'l'] rest).map (fun r => (Json.null, r))
      else if c == 't' then (expectLit ['r', 'u', 'e'] rest).map (fun r => (Json.bool true, r))
      else if c == 'f' then
        (expectLit ['a', 'l', 's', 'e'] rest).map (fun r => (Json.bool false, r))
      else if c.toNat == 34 then
        (parseStringBody (fuel + 1) rest []).map (fun r => (Json.string r.1, r.2))
      else if c == '[' then
        match skipWs rest with
        | d :: rest2 => if d == ']' then some (Json.array [], rest2) else parseElements fuel rest []
        | [] => none
      else if c.toNat == 123 then
        match skipWs rest with
        | d :: rest2 =>
          if d.toNat == 125 then some (Json.object [], rest2) else parseMembers fuel rest []
        | [] => none
      else if c == '-' ∨ isDigit c then
        (parseNumber (c :: rest)).map (fun r => (Json.number r.1, r.2))
      else none
/-- The elements of a non-empty JSON array, up to its closing bracket. -/
def parseElements : Nat → List Char → List Json → Option (Json × List Char)
  | 0, _, _ => none
  | fuel + 1, cs, acc =>
    match parseValue fuel cs with
    | none => none
    | some (v, rest) =>
      match skipWs rest with
      | d :: rest2 =>
        if d == ',' then parseElements fuel rest2 (v :: acc)
        else if d == ']' then some (Json.array (v :: acc).reverse, rest2)
        else none
      | [] => none
/-- The members of a non-empty JSON object, up to its closing brace. -/
def parseMembers : Nat → List Char → List (String × Json) → Option (Json × List Char)
  | 0, _, _ => none
  | fuel + 1, cs, acc =>
    match skipWs cs with
    | q :: rest =>
      if q.toNat == 34 then
        match parseStringBody (fuel + 1) rest [] with
        | none => none
        | some (k, rest2) =>
          match skipWs rest2 with
          | colon :: rest3 =>
            if colon == ':' then
              match parseValue fuel rest3 with
              | none => none
              | some (v, rest4) =>
                match skipWs rest4 with
                | d :: rest5 =>
                  if d == ',' then parseMembers fuel rest5 ((k, v) :: acc)
                  else if d.toNat == 125 then some (Json.object ((k, v) :: acc).reverse, rest5)
                  else none
                | [] => none
            else none
          | [] => none
      else none
    | [] => none
end

/-- The exceptions met in the component: the one `JSON.parse` throws and the
one thrown by reading an identifier that is declared nowhere. -/
inductive JsError where
  | SyntaxError
  | ReferenceError
  deriving DecidableEq, Repr

/-- The function `JSON.parse`: the parsed value, or `SyntaxError`.  The fuel is
the input length plus one: a nesting level spends two units of it and holds its
two brackets, a further element or member spends one and holds its comma. -/
def JSONparse (s : String) : Except JsError Json :=
  match parseValue (s.data.length + 1) s.data with
  | some (v, rest) => if skipWs rest = [] then Except.ok v else Except.error JsError.SyntaxError
  | none => Except.error JsError.SyntaxError

/-! ## Data model -/

/-- An integer-valued JavaScript number of magnitude at most `2^53 - 1`
(`Number.isSafeInteger`).  On this range a number is exactly its integer and
the template literal prints it in decimal; fractions, larger magnitudes (which
print in exponent form from `1e21` up and skip integers above `2^53`), `NaN`
and the infinities are floating-point values outside the embedding. -/
structure SafeInteger where
  val : Int
  safe : val.natAbs < 9007199254740992
  deriving DecidableEq, Repr

/-- One record of the search response (`response.data.docs`), with the fields
the component reads as text or integers.  The rating fields are floating-point
numbers and are left out. -/
structure Book where
  key : Option String
  title : String
  author_name : Option (List String)
  first_publish_year : Option Int
  cover_i : Option SafeInteger
  deriving DecidableEq, Repr

/-- The React state of `App` (the `useState` cells of lines 26-34). -/
structure AppState where
  query : String
  books : List Book
  loading : Bool
  error : String
  selectedBook : Option Book
  darkMode : Bool
  searchHistory : List String
  showHistory : Bool
  showFilters : Bool
  deriving DecidableEq, Repr

/-- The two `localStorage` entries the component uses; `none` is an entry that
is not there (`getItem` returns `null`). -/
structure LocalStorage where
  bookSearchHistory : Option String
  darkMode : Option String
  deriving DecidableEq, Repr

/-- The component state together with the browser storage. -/
structure World where
  app : AppState
  storage : LocalStorage
  deriving DecidableEq, Repr

/-- The initial values of the `useState` cells. -/
def initialState : AppState :=
  { query := "", books := [], loading := false, error := "", selectedBook := none,
    darkMode := false, searchHistory := [], showHistory := false, showFilters := false }

/-- The component at mount over an empty storage. -/
def initialWorld : World :=
  { app := initialState, storage := { bookSearchHistory := none, darkMode := none } }

/-- How the request of `searchBooks` settles: fulfilled with a body whose
`docs` field is a list or is absent, or rejected. -/
inductive Response where
  | success (docs : Option (List Book))
  | failure
  deriving DecidableEq, Repr

/-- The six branches of the conditional in `<main>`. -/
inductive View where
  | Loading
  | Error
  | Detail
  | Results
  | Empty
  | Welcome
  deriving DecidableEq, Repr

/-- What a render of the main content ends in: a view on the page, or an
exception. -/
inductive Render where
  | shown (view : View)
  | throws (e : JsError)
  deriving DecidableEq, Repr

/-! ## Handlers of the component -/

/-- The branch that the conditional of `<main className="main-content">` (lines
241-437) takes.  A string is truthy when it is not empty, `selectedBook` is
truthy when it is not `null`. -/
def mainBranch (s : AppState) : View :=
  if s.loading && s.books.length == 0 then View.Loading
  else if s.error ≠ "" then View.Error
  else if s.selectedBook.isSome then View.Detail
  else if s.books.length > 0 then View.Results
  else if s.query ≠ "" then View.Empty
  else View.Welcome

/-- The render of `<main className="main-content">` (lines 241-437): the view
shown, or the exception the render throws.  The Error branch evaluates
`onClick={handleSearch}` (line 256) and `handleSearch` is declared nowhere in
the module, so rendering that branch throws `ReferenceError` and nothing is
shown.  The Welcome branch names `handleSearch` only inside the bodies of its
click handlers (lines 405, 425), which a render does not run; every other
identifier the branches read is declared. -/
def mainContent (s : AppState) : Render :=
  match mainBranch s with
  | View.Error => Render.throws JsError.ReferenceError
  | v => Render.shown v

/-- The value `String(b)` that `localStorage.setItem` stores for a boolean. -/
def boolToString (b : Bool) : String := if b then "true" else "false"

/-- The values the startup effect passes to its two setters. -/
structure Startup where
  searchHistory : Option Json
  darkMode : Bool

/-- The expression computed for `isDarkMode` in the startup effect (lines
43-44); `matchMedia` is `none` when `window.matchMedia` does not exist and is
otherwise the `matches` flag of the dark colour scheme query. -/
def resolveDarkMode (storage : LocalStorage) (matchMedia : Option Bool) : Bool :=
  storage.darkMode == some "true" ||
    (match matchMedia with
     | some m => m
     | none => false)

/-- The startup `useEffect` (lines 37-47): the value given to
`setSearchHistory` (`none` when it is not called) and the value given to
`setDarkMode`, or the exception that `JSON.parse` throws, which nothing
catches. -/
def startupEffect (storage : LocalStorage) (matchMedia : Option Bool) :
    Except JsError Startup :=
  let parsed : Except JsError (Option Json) :=
    match storage.bookSearchHistory with
    | none => Except.ok none
    | some savedHistory =>
      if savedHistory ≠ "" then
        match JSONparse savedHistory with
        | Except.ok v => Except.ok (some v)
        | Except.error e => Except.error e
      else Except.ok none
  match parsed with
  | Except.error e => Except.error e
  | Except.ok h => Except.ok { searchHistory := h, darkMode := resolveDarkMode storage matchMedia }

/-- The handler `toggleDarkMode` (lines 50-55). -/
def toggleDarkMode (w : World) : World :=
  let newDarkMode := !w.app.darkMode
  { app := { w.app with darkMode := newDarkMode },
    storage := { w.storage with darkMode := some (boolToString newDarkMode) } }

/-- The function `saveToHistory` (lines 58-68). -/
def saveToHistory (toLowerCase : String → String) (searchTerm : String) (w : World) : World :=
  if trim searchTerm = "" then w
  else
    let updatedHistory :=
      (searchTerm :: w.app.searchHistory.filter
        (fun term => toLowerCase term != toLowerCase searchTerm)).take 10
    { app := { w.app with searchHistory := updatedHistory },
      storage := { w.storage with bookSearchHistory := some (JSONstringify updatedHistory) } }

/-- The handler `clearSearch` (lines 78-80). -/
def clearSearch (s : AppState) : AppState := { s with query := "" }

/-- The handler `clearSearchHistory` (lines 82-85). -/
def clearSearchHistory (w : World) : World :=
  { app := { w.app with searchHistory := [] },
    storage := { w.storage with bookSearchHistory := none } }

/-- The address `searchBooks` asks for (line 101). -/
def searchUrl (query : String) : String :=
  "https://openlibrary.org/search.json?q=" ++ encodeURIComponent query ++ "&limit=12"

/-- The part of `searchBooks` before the `await` (lines 94-102): the new state
and the request issued, if any. -/
def searchBooksStart (w : World) : World × Option String :=
  if trim w.app.query = "" then (w, none)
  else ({ w with app := { w.app with loading := true, error := "" } },
        some (searchUrl w.app.query))

/-- The part of `searchBooks` after the `await` (lines 103-110). -/
def searchBooksSettle (r : Response) (w : World) : World :=
  match r with
  | Response.success docs =>
    { w with app := { w.app with books := docs.getD [], selectedBook := none, loading := false } }
  | Response.failure =>
    { w with app := { w.app with error := "Failed to fetch books. Please try again.",
                                  loading := false } }

/-- One whole run of `searchBooks` with no other event in between: the final
state and the requests issued. -/
def searchBooks (r : Response) (w : World) : World × List String :=
  match searchBooksStart w with
  | (w1, some url) => (searchBooksSettle r w1, [url])
  | (w1, none) => (w1, [])

/-- The function `getBookCoverUrl` (lines 113-117): `coverId` is `none` when
the field is absent, and `size` is `none` when the argument is omitted.  A
number is truthy when it is not zero. -/
def getBookCoverUrl (coverId : Option SafeInteger) (size : Option String) : String :=
  let size := size.getD "M"
  match coverId with
  | some id =>
    if id.val ≠ 0 then
      "https://covers.openlibrary.org/b/id/" ++ toString id.val ++ "-" ++ size ++ ".jpg"
    else "https://via.placeholder.com/150x200?text=No+Cover"
  | none => "https://via.placeholder.com/150x200?text=No+Cover"

/-- The handler `openBookDetails` (lines 119-122). -/
def openBookDetails (book : Book) (s : AppState) : AppState := { s with selectedBook := some book }

/-- The handler `closeBookDetails` (lines 124-126). -/
def closeBookDetails (s : AppState) : AppState := { s with selectedBook := none }

/-! ## The user-event transition system -/

/-- The user events and the settling of a request. -/
inductive Event where
  | type (value : String)
  | clear
  | submit
  | settle (r : Response)
  | select (book : Book)
  | close
  deriving DecidableEq, Repr

/-- The component with three history variables that the code does not keep:
the number of requests in flight, the queries for which a request was issued
and the responses that have arrived (newest first). -/
structure Sys where
  world : World
  pending : Nat
  submitted : List String
  settled : List Response
  deriving DecidableEq, Repr

/-- The system at mount over an empty storage. -/
def Sys.init : Sys :=
  { world := initialWorld, pending := 0, submitted := [], settled := [] }

/-- One event.  `type` is the `onChange` of the search input, `clear` the
button rendered while `query` is truthy, `submit` a call of `searchBooks` (the
Enter key calls it in every state), `settle` the end of a request in flight,
`select` a click on a card of the Results view and `close` the back button of
the Detail view.  The result is `none` when the event cannot happen in the
state.  A render that throws takes the component off the page; the events are
kept enabled after it, so the reachable states here include the real ones. -/
def Sys.step (s : Sys) : Event → Option Sys
  | Event.type value =>
    some { s with world := { s.world with app := { s.world.app with query := value } } }
  | Event.clear =>
    if s.world.app.query ≠ "" then
      some { s with world := { s.world with app := clearSearch s.world.app } }
    else none
  | Event.submit =>
    match searchBooksStart s.world with
    | (w, some _) =>
      some { s with world := w, pending := s.pending + 1,
                    submitted := s.world.app.query :: s.submitted }
    | (w, none) => some { s with world := w }
  | Event.settle r =>
    if 0 < s.pending then
      some { s with world := searchBooksSettle r s.world, pending := s.pending - 1,
                    settled := r :: s.settled }
    else none
  | Event.select book =>
    if mainContent s.world.app = Render.shown View.Results ∧ book ∈ s.world.app.books then
      some { s with world := { s.world with app := openBookDetails book s.world.app } }
    else none
  | Event.close =>
    if mainContent s.world.app = Render.shown View.Detail then
      some { s with world := { s.world with app := closeBookDetails s.world.app } }
    else none

/-- A sequence of events from a state. -/
def Sys.run (s : Sys) : List Event → Option Sys
  | [] => some s
  | e :: es =>
    match s.step e with
    | some t => t.run es
    | none => none

/-- The states reachable from the mounted component by events. -/
def Reachable (s : Sys) : Prop := ∃ es, Sys.init.run es = some s

/-- The record list of the newest fulfilled response, if any has arrived. -/
def lastFulfilled : List Response → Option (List Book)
  | [] => none
  | Response.success docs :: _ => some (docs.getD [])
  | Response.failure :: rest => lastFulfilled rest

/-- Whether some fulfilled response among those arrived held no record. -/
def someFulfilledEmpty (settled : List Response) : Bool :=
  settled.any (fun r =>
    match r with
    | Response.success docs => (docs.getD []).isEmpty
    | Response.failure => false)

/-- What every reachable state satisfies: the result set is the record list of
the newest fulfilled response, or is empty when none has arrived. -/
def BooksFromLastFulfilled (s : Sys) : Prop :=
  s.world.app.books = (lastFulfilled s.settled).getD []

/-! ## The view order as the specification words it -/

/-- The view by the stated order Loading > Error > Detail > Results > Empty >
Welcome, with the stated conditions: Loading when `loading` is true, Error when
`error` is not empty, Detail when a book is selected, Results when `books` is
not empty, Empty when `query` is not empty, Welcome otherwise. -/
def statedView (s : AppState) : View :=
  if s.loading then View.Loading
  else if s.error ≠ "" then View.Error
  else if s.selectedBook.isSome then View.Detail
  else if s.books ≠ [] then View.Results
  else if s.query ≠ "" then View.Empty
  else View.Welcome

/-- A sequence of `saveToHistory` calls, one render apart. -/
def recordAll (toLowerCase : String → String) (terms : List String) (w : World) : World :=
  terms.foldl (fun acc term => saveToHistory toLowerCase term acc) w

/-- A record of the catalogue used in the examples. -/
def duneBook : Book :=
  { key := some "/works/OL893415W", title := "Dune", author_name := some ["Frank Herbert"],
    first_publish_year := some 1965, cover_i := some ⟨12345, by decide⟩ }

/-- Lower-casing of the ASCII letters, one instance of `toLowerCase` for the
examples. -/
def asciiLower (s : String) : String := String.mk (s.data.map Char.toLower)

/-- The state after typing `zzzqqq`, submitting, and the arrival of a fulfilled
response with an empty record list. -/
def zzzqqqSys : Sys :=
  { world := { initialWorld with app := { initialState with query := "zzzqqq" } },
    pending := 0, submitted := ["zzzqqq"], settled := [Response.success (some [])] }

/-- The fixed placeholder address of `getBookCoverUrl`. -/
def placeholderUrl : String := "https://via.placeholder.com/150x200?text=No+Cover"

/-! ## C1: the view shown by the main content -/

/-- The branch taken is the first of the stated order once `loading` counts
only while `books` is empty; with `loading` false it is the stated one. -/
theorem mainBranch_precedence (s : AppState) :
    mainBranch s = statedView { s with loading := s.loading && s.books.isEmpty } ∧
    (s.loading = true ∧ s.error ≠ "" →
      mainBranch s = if s.books = [] then View.Loading else View.Error) ∧
    (s.loading = false → mainBranch s = statedView s) := by
  obtain ⟨query, books, loading, error, selectedBook, dm, hist, sh, sf⟩ := s
  cases loading <;> cases books <;> simp [mainBranch, statedView]
  intro h
  simp [h]

/-- The render shows the branch taken, except that it throws on the Error
branch. -/
theorem mainContent_eq (s : AppState) :
    mainContent s =
      if mainBranch s = View.Error then Render.throws JsError.ReferenceError
      else Render.shown (mainBranch s) := by
  unfold mainContent
  cases h : mainBranch s <;> simp

/-- A second search over a result set that is not empty keeps the Results view
while `loading` is true: the guard of the Loading branch asks for an empty
`books`. -/
theorem mainContent_loading_over_results :
    ∃ s, Sys.init.run [Event.type "dune", Event.submit,
        Event.settle (Response.success (some [duneBook])), Event.submit] = some s ∧
      s.world.app.loading = true ∧ statedView s.world.app = View.Loading ∧
      mainContent s.world.app = Render.shown View.Results :=
  ⟨{ world := { initialWorld with
                  app := { initialState with query := "dune", books := [duneBook], loading := true } },
     pending := 1, submitted := ["dune", "dune"],
     settled := [Response.success (some [duneBook])] },
   by decide, rfl, by decide, by decide⟩

/-- C1 (the code at the failing input): after typing `dune`, submitting, and the
rejection of the request, `loading` is false and `error` is set; the first
state of the stated order whose condition holds is Error and the conditional
takes the Error branch, but rendering it throws `ReferenceError`, so the Error
view is not shown. -/
theorem mainContent_error_branch_throws :
    ∃ s, Sys.init.run [Event.type "dune", Event.submit, Event.settle Response.failure] = some s ∧
      s.world.app.loading = false ∧
      s.world.app.error = "Failed to fetch books. Please try again." ∧
      statedView s.world.app = View.Error ∧
      mainBranch s.world.app = View.Error ∧
      mainContent s.world.app = Render.throws JsError.ReferenceError ∧
      mainContent s.world.app ≠ Render.shown (statedView s.world.app) :=
  ⟨{ world := { initialWorld with
                  app := { initialState with
                             query := "dune", error := "Failed to fetch books. Please try again." } },
     pending := 0, submitted := ["dune"], settled := [Response.failure] },
   by decide, rfl, rfl, by decide, by decide, by decide, by decide⟩

/-! ## C2: the search history under `saveToHistory` -/

/-- The history after one `saveToHistory` with a term that is not blank. -/
theorem saveToHistory_history (lower : String → String) (term : String) (w : World)
    (h : trim term ≠ "") :
    (saveToHistory lower term w).app.searchHistory =
      term :: (w.app.searchHistory.filter (fun x => lower x != lower term)).take 9 := by
  simp [saveToHistory, h]

/-- A blank term leaves everything as it is. -/
theorem saveToHistory_blank (lower : String → String) (term : String) (w : World)
    (h : trim term = "") : saveToHistory lower term w = w := by
  simp [saveToHistory, h]

/-- One `saveToHistory` keeps the history short and free of case-insensitive
duplicates. -/
theorem saveToHistory_preserves (lower : String → String) (term : String) (w : World)
    (hlen : w.app.searchHistory.length ≤ 10)
    (hpw : w.app.searchHistory.Pairwise (fun a b => lower a ≠ lower b)) :
    (saveToHistory lower term w).app.searchHistory.length ≤ 10 ∧
    (saveToHistory lower term w).app.searchHistory.Pairwise (fun a b => lower a ≠ lower b) := by
  by_cases h : trim term = ""
  · rw [saveToHistory_blank lower term w h]
    exact ⟨hlen, hpw⟩
  · rw [saveToHistory_history lower term w h]
    constructor
    · simp only [List.length_cons, List.length_take]
      omega
    · rw [List.pairwise_cons]
      constructor
      · intro x hx
        have hx2 := List.mem_of_mem_take hx
        have hx3 := (List.mem_filter.mp hx2).2
        intro heq
        simp [heq] at hx3
      · exact (hpw.sublist (List.filter_sublist _)).sublist (List.take_sublist _ _)

/-- The invariant after any sequence of calls from a state that satisfies it. -/
theorem recordAll_preserves (lower : String → String) (terms : List String) :
    ∀ w : World, w.app.searchHistory.length ≤ 10 →
      w.app.searchHistory.Pairwise (fun a b => lower a ≠ lower b) →
      (recordAll lower terms w).app.searchHistory.length ≤ 10 ∧
      (recordAll lower terms w).app.searchHistory.Pairwise (fun a b => lower a ≠ lower b) := by
  induction terms with
  | nil => intro w hlen hpw; exact ⟨hlen, hpw⟩
  | cons t ts ih =>
    intro w hlen hpw
    have hstep := saveToHistory_preserves lower t w hlen hpw
    exact ih (saveToHistory lower t w) hstep.1 hstep.2

/-- C2: from the empty history, after any sequence of `saveToHistory` calls the
history has at most 10 entries, no two of them equal under the case-insensitive
comparison.  After one more call with a term that is not blank, that term is
the first entry, it is the only entry equal to it in any letter-casing, every
other entry was there before, and the stored entry is the serialised list; the
entries behind it are the earlier history in its order without the entries
equal to the term in any letter-casing, cut to 9: when the term was there in
some letter-casing or the history held fewer than 10 entries no other entry is
lost, and when the term is new only entries past the ninth are dropped.  A call
with a blank term changes nothing. -/
theorem saveToHistory_invariant (toLowerCase : String → String) (terms : List String)
    (term : String) :
    (recordAll toLowerCase terms initialWorld).app.searchHistory.length ≤ 10 ∧
    (recordAll toLowerCase terms initialWorld).app.searchHistory.Pairwise
      (fun a b => toLowerCase a ≠ toLowerCase b) ∧
    (trim term ≠ "" →
      (recordAll toLowerCase (terms ++ [term]) initialWorld).app.searchHistory.head? = some term ∧
      ((recordAll toLowerCase (terms ++ [term]) initialWorld).app.searchHistory.filter
        (fun x => toLowerCase x == toLowerCase term)).length = 1 ∧
      (∀ x ∈ (recordAll toLowerCase (terms ++ [term]) initialWorld).app.searchHistory,
        x = term ∨ x ∈ (recordAll toLowerCase terms initialWorld).app.searchHistory) ∧
      (recordAll toLowerCase (terms ++ [term]) initialWorld).storage.bookSearchHistory =
        some (JSONstringify
          (recordAll toLowerCase (terms ++ [term]) initialWorld).app.searchHistory) ∧
      (recordAll toLowerCase (terms ++ [term]) initialWorld).app.searchHistory =
        (term :: (recordAll toLowerCase terms initialWorld).app.searchHistory.filter
          (fun x => toLowerCase x != toLowerCase term)).take 10 ∧
      ((recordAll toLowerCase (terms ++ [term]) initialWorld).app.searchHistory.tail.Sublist
        (recordAll toLowerCase terms initialWorld).app.searchHistory) ∧
      (((∃ x ∈ (recordAll toLowerCase terms initialWorld).app.searchHistory,
            toLowerCase x = toLowerCase term) ∨
          (recordAll toLowerCase terms initialWorld).app.searchHistory.length < 10) →
        (recordAll toLowerCase (terms ++ [term]) initialWorld).app.searchHistory =
          term :: (recordAll toLowerCase terms initialWorld).app.searchHistory.filter
            (fun x => toLowerCase x != toLowerCase term)) ∧
      ((∀ x ∈ (recordAll toLowerCase terms initialWorld).app.searchHistory,
            toLowerCase x ≠ toLowerCase term) →
        (recordAll toLowerCase (terms ++ [term]) initialWorld).app.searchHistory =
          term :: (recordAll toLowerCase terms initialWorld).app.searchHistory.take 9)) ∧
    (trim term = "" →
      recordAll toLowerCase (terms ++ [term]) initialWorld =
        recordAll toLowerCase terms initialWorld) := by
  have hinv := recordAll_preserves toLowerCase terms initialWorld (by decide) (by
    show List.Pairwise _ []
    exact List.Pairwise.nil)
  have hrun : recordAll toLowerCase (terms ++ [term]) initialWorld =
      saveToHistory toLowerCase term (recordAll toLowerCase terms initialWorld) := by
    simp [recordAll, List.foldl_append]
  refine ⟨hinv.1, hinv.2, ?_, ?_⟩
  · intro h
    rw [hrun, saveToHistory_history toLowerCase term _ h]
    refine ⟨rfl, ?_, ?_, ?_, ?_, ?_, ?_, ?_⟩
    · have hnil : List.filter (fun x => toLowerCase x == toLowerCase term)
          (List.take 9 (List.filter (fun x => toLowerCase x != toLowerCase term)
            (recordAll toLowerCase terms initialWorld).app.searchHistory)) = [] := by
        rw [List.filter_eq_nil_iff]
        intro x hx
        have hx3 := (List.mem_filter.mp (List.mem_of_mem_take hx)).2
        simpa using hx3
      simp [List.filter_cons, hnil]
    · intro x hx
      rcases List.mem_cons.mp hx with hx1 | hx1
      · exact Or.inl hx1
      · exact Or.inr (List.mem_filter.mp (List.mem_of_mem_take hx1)).1
    · simp [saveToHistory, h]
    · rfl
    · exact (List.take_sublist _ _).trans (List.filter_sublist _)
    · intro hc
      have hlen : ((recordAll toLowerCase terms initialWorld).app.searchHistory.filter
          (fun x => toLowerCase x != toLowerCase term)).length ≤ 9 := by
        rcases hc with ⟨x, hx, hxe⟩ | hlt
        · have hlt : ((recordAll toLowerCase terms initialWorld).app.searchHistory.filter
              (fun x => toLowerCase x != toLowerCase term)).length <
              (recordAll toLowerCase terms initialWorld).app.searchHistory.length := by
            rw [List.length_filter_lt_length_iff_exists]
            exact ⟨x, hx, by simp [hxe]⟩
          have := hinv.1
          omega
        · have := List.length_filter_le (fun x => toLowerCase x != toLowerCase term)
            (recordAll toLowerCase terms initialWorld).app.searchHistory
          omega
      rw [List.take_of_length_le hlen]
    · intro hall
      have hself : (recordAll toLowerCase terms initialWorld).app.searchHistory.filter
          (fun x => toLowerCase x != toLowerCase term) =
          (recordAll toLowerCase terms initialWorld).app.searchHistory := by
        rw [List.filter_eq_self]
        intro a ha
        simpa using hall a ha
      rw [hself]
  · intro h
    rw [hrun, saveToHistory_blank toLowerCase term _ h]

/-- C2 (witness): recording `DUNE` after `dune` and `emma` moves it to the front
and keeps `emma`; recording an eleventh term drops the oldest one only. -/
theorem saveToHistory_invariant_witness :
    (trim "DUNE" ≠ "" ∧
      (recordAll asciiLower (["dune", "emma"] ++ ["DUNE"]) initialWorld).app.searchHistory
        = ["DUNE", "emma"]) ∧
    (trim "k" ≠ "" ∧
      (recordAll asciiLower (["a", "b", "c", "d", "e", "f", "g", "h", "i", "j"] ++ ["k"])
        initialWorld).app.searchHistory
        = ["k", "j", "i", "h", "g", "f", "e", "d", "c", "b"]) :=
  ⟨⟨by decide,
    ((saveToHistory_invariant asciiLower ["dune", "emma"] "DUNE").2.2.1
      (by decide)).2.2.2.2.2.2.1 (Or.inr (by decide)) |>.trans (by decide)⟩,
   ⟨by decide,
    ((saveToHistory_invariant asciiLower ["a", "b", "c", "d", "e", "f", "g", "h", "i", "j"]
      "k").2.2.1 (by decide)).2.2.2.2.2.2.2 (by decide) |>.trans (by decide)⟩⟩

/-! ## C3: `searchBooks` and the search history -/

/-- A run of `searchBooks` never touches the history, in memory or stored. -/
theorem searchBooks_history_untouched (r : Response) (w : World) :
    (searchBooks r w).1.app.searchHistory = w.app.searchHistory ∧
    (searchBooks r w).1.storage = w.storage := by
  unfold searchBooks searchBooksStart
  split_ifs with h
  · simp
  · cases r <;> simp [searchBooksSettle]

/-- C3 (the code at the failing input): submitting `dune` over an empty history
with a fulfilled response of one record issues the request and stores the
record, and leaves the history empty and the stored entry absent. -/
theorem searchBooks_dune_leaves_history_empty :
    (searchBooks (Response.success (some [duneBook]))
      { initialWorld with app := { initialState with query := "dune" } }).2
        = ["https://openlibrary.org/search.json?q=dune&limit=12"] ∧
    (searchBooks (Response.success (some [duneBook]))
      { initialWorld with app := { initialState with query := "dune" } }).1.app.books
        = [duneBook] ∧
    (searchBooks (Response.success (some [duneBook]))
      { initialWorld with app := { initialState with query := "dune" } }).1.app.searchHistory
        = [] ∧
    (searchBooks (Response.success (some [duneBook]))
      { initialWorld with app := { initialState with query := "dune" } }).1.storage.bookSearchHistory
        = none := by
  decide

/-! ## C4: the stored result set -/

/-- C4 (counterexample): a fulfilled response of 13 records leaves 13 records in
`books`. -/
theorem searchBooks_thirteen_records_counterexample :
    (searchBooks (Response.success (some (List.replicate 13 duneBook)))
      { initialWorld with app := { initialState with query := "dune" } }).1.app.books.length
        = 13 ∧
    ¬ (searchBooks (Response.success (some (List.replicate 13 duneBook)))
      { initialWorld with app := { initialState with query := "dune" } }).1.app.books.length
        ≤ 12 := by
  decide

/-- C4 (amended): for every query that is not blank and every fulfilled
response, after `searchBooks` the stored result set is exactly the record list
of the response in its order, the empty list when the field is absent; the
component does not shorten it, so it holds at most 12 records when the
response does. -/
theorem searchBooks_books (w : World) (docs : Option (List Book))
    (h : trim w.app.query ≠ "") :
    (searchBooks (Response.success docs) w).1.app.books = docs.getD [] ∧
    (docs = none → (searchBooks (Response.success docs) w).1.app.books = []) ∧
    ((docs.getD []).length ≤ 12 →
      (searchBooks (Response.success docs) w).1.app.books.length ≤ 12) := by
  have hb : (searchBooks (Response.success docs) w).1.app.books = docs.getD [] := by
    simp [searchBooks, searchBooksStart, h, searchBooksSettle]
  refine ⟨hb, ?_, ?_⟩
  · intro hd
    rw [hb, hd]
    rfl
  · intro hl
    rw [hb]
    exact hl

/-- C4 (witness): the query `dune` with a response of one record. -/
theorem searchBooks_books_witness :
    trim "dune" ≠ "" ∧
    (searchBooks (Response.success (some [duneBook]))
      { initialWorld with app := { initialState with query := "dune" } }).1.app.books
        = [duneBook] :=
  ⟨by decide,
   (searchBooks_books { initialWorld with app := { initialState with query := "dune" } }
      (some [duneBook]) (by decide)).1⟩

/-! ## C5: the theme at startup -/

/-- The theme resolved at startup is dark exactly when `true` is stored or the
system prefers dark: a stored `false` counts like no stored value. -/
theorem resolveDarkMode_iff (storage : LocalStorage) (matchMedia : Option Bool) :
    resolveDarkMode storage matchMedia = true ↔
      storage.darkMode = some "true" ∨ matchMedia = some true := by
  cases matchMedia <;> simp [resolveDarkMode]

/-- C5 (the code at the failing input): toggling from dark writes `false` to the
storage, and a restart over that storage with the dark colour scheme of the
system resolves the theme to dark, not to the stored light. -/
theorem restart_after_toggle_to_light_is_dark :
    (toggleDarkMode { initialWorld with app := { initialState with darkMode := true } }).app.darkMode
      = false ∧
    (toggleDarkMode { initialWorld with app := { initialState with darkMode := true } }).storage.darkMode
      = some "false" ∧
    resolveDarkMode
      (toggleDarkMode { initialWorld with app := { initialState with darkMode := true } }).storage
      (some true) = true ∧
    ∃ r, startupEffect
      (toggleDarkMode { initialWorld with app := { initialState with darkMode := true } }).storage
      (some true) = Except.ok r ∧ r.searchHistory.isNone = true ∧ r.darkMode = true :=
  ⟨by decide, by decide, by decide, ⟨{ searchHistory := none, darkMode := true }, rfl, rfl, rfl⟩⟩

/-! ## C6: the cover address -/

/-- The address built from an identifier is never the placeholder. -/
theorem coverUrl_ne_placeholder (id : Int) (size : String) :
    "https://covers.openlibrary.org/b/id/" ++ toString id ++ "-" ++ size ++ ".jpg"
      ≠ placeholderUrl := by
  intro h
  have hd := congrArg String.data h
  simp [String.data_append, placeholderUrl] at hd

/-- C6 (counterexample): the identifier 0 is present and gets the placeholder,
not the address built from it. -/
theorem getBookCoverUrl_zero_counterexample :
    getBookCoverUrl (some ⟨0, by decide⟩) none = placeholderUrl ∧
    getBookCoverUrl (some ⟨0, by decide⟩) none ≠ "https://covers.openlibrary.org/b/id/0-M.jpg" := by
  decide

/-- C6 (amended): for every identifier that is a safe integer other than 0 and
every size token, `getBookCoverUrl` returns the address built from the decimal
digits of the identifier and the size, with size `M` when the size is omitted;
on the safe integers it returns the placeholder exactly when the identifier is
absent or is 0. -/
theorem getBookCoverUrl_spec (coverId : Option SafeInteger) (size : Option String) :
    (∀ id : SafeInteger, coverId = some id → id.val ≠ 0 →
      getBookCoverUrl coverId size =
        "https://covers.openlibrary.org/b/id/" ++ toString id.val ++ "-" ++ size.getD "M"
          ++ ".jpg") ∧
    (getBookCoverUrl coverId size = placeholderUrl ↔
      coverId = none ∨ ∃ id : SafeInteger, coverId = some id ∧ id.val = 0) := by
  constructor
  · intro id hid hne
    subst hid
    simp [getBookCoverUrl, hne]
  · cases coverId with
    | none => simp [getBookCoverUrl, placeholderUrl]
    | some id =>
      by_cases hid : id.val = 0
      · simp [getBookCoverUrl, placeholderUrl, hid]
      · have hne := coverUrl_ne_placeholder id.val (size.getD "M")
        simp [getBookCoverUrl, hid, hne]

/-- C6 (witness): identifier 12345 with the size omitted, and with size `L`. -/
theorem getBookCoverUrl_spec_witness :
    getBookCoverUrl (some ⟨12345, by decide⟩) none
      = "https://covers.openlibrary.org/b/id/12345-M.jpg" ∧
    getBookCoverUrl (some ⟨12345, by decide⟩) (some "L")
      = "https://covers.openlibrary.org/b/id/12345-L.jpg" :=
  ⟨((getBookCoverUrl_spec (some ⟨12345, by decide⟩) none).1 ⟨12345, by decide⟩ rfl
      (by decide)).trans (by decide),
   ((getBookCoverUrl_spec (some ⟨12345, by decide⟩) (some "L")).1 ⟨12345, by decide⟩ rfl
      (by decide)).trans (by decide)⟩

/-! ## C7: a blank query -/

/-- C7: when the query is empty after trimming, `searchBooks` issues no request
and leaves the whole state, the storage included, as it was, however the
request would have settled. -/
theorem searchBooks_blank_query (r : Response) (w : World) (h : trim w.app.query = "") :
    searchBooks r w = (w, []) ∧ searchBooksStart w = (w, none) := by
  simp [searchBooks, searchBooksStart, h]

/-- C7 (witness): a query of three spaces. -/
theorem searchBooks_blank_query_witness :
    trim "   " = "" ∧
    searchBooks Response.failure { initialWorld with app := { initialState with query := "   " } }
      = ({ initialWorld with app := { initialState with query := "   " } }, []) :=
  ⟨by decide,
   (searchBooks_blank_query Response.failure
      { initialWorld with app := { initialState with query := "   " } } (by decide)).1⟩

/-! ## C8: the request of `searchBooks` -/

/-- Leading white space with a trailing space appended. -/
theorem dropWhile_append_space (cs : List Char) :
    (cs ++ [' ']).dropWhile isJsWhiteSpace =
      if cs.dropWhile isJsWhiteSpace = [] then [] else cs.dropWhile isJsWhiteSpace ++ [' '] := by
  induction cs with
  | nil => decide
  | cons c cs ih =>
    by_cases hc : isJsWhiteSpace c = true
    · simp only [List.cons_append, List.dropWhile_cons, hc, if_true]
      exact ih
    · simp [List.dropWhile_cons, hc]

/-- Trimming undoes a padding of one space on each side. -/
theorem trimChars_pad (cs : List Char) : trimChars (' ' :: (cs ++ [' '])) = trimChars cs := by
  have hsp : isJsWhiteSpace ' ' = true := by decide
  unfold trimChars
  rw [List.dropWhile_cons, if_pos hsp, dropWhile_append_space]
  by_cases hd : cs.dropWhile isJsWhiteSpace = []
  · simp [hd]
  · simp [hd, List.dropWhile_cons, hsp]

/-- The padded query trims to what the query trims to. -/
theorem trim_pad (q : String) : trim (" " ++ q ++ " ") = trim q := by
  unfold trim
  have hdata : (" " ++ q ++ " ").data = ' ' :: (q.data ++ [' ']) := by
    simp [String.data_append]
  rw [hdata, trimChars_pad]

/-- The address asked for a padded query carries the two spaces, escaped. -/
theorem searchUrl_pad (q : String) :
    searchUrl (" " ++ q ++ " ") =
      "https://openlibrary.org/search.json?q=%20" ++ encodeURIComponent q ++ "%20&limit=12" := by
  apply String.ext
  have henc : encodeURIChar ' ' = ['%', '2', '0'] := by decide
  simp [searchUrl, encodeURIComponent, String.data_append, List.flatMap_append, henc]

/-- The address asked for a padded query is six characters longer. -/
theorem searchUrl_pad_ne (q : String) : searchUrl (" " ++ q ++ " ") ≠ searchUrl q := by
  intro h
  rw [searchUrl_pad] at h
  have hl := congrArg (fun s : String => s.data.length) h
  simp [searchUrl, String.data_append] at hl

/-- C8 (counterexample): the query `dune` padded with a space on each side asks
for an address with the escaped spaces in it, which is neither the address of
the trimmed query nor the one the query `dune` asks for. -/
theorem searchBooks_padded_query_counterexample :
    trim " dune " = "dune" ∧
    (searchBooks (Response.success none)
      { initialWorld with app := { initialState with query := " dune " } }).2
        = ["https://openlibrary.org/search.json?q=%20dune%20&limit=12"] ∧
    (searchBooks (Response.success none)
      { initialWorld with app := { initialState with query := " dune " } }).2
        ≠ ["https://openlibrary.org/search.json?q=" ++ encodeURIComponent (trim " dune ")
            ++ "&limit=12"] ∧
    (searchBooks (Response.success none)
      { initialWorld with app := { initialState with query := " dune " } }).2
        ≠ (searchBooks (Response.success none)
            { initialWorld with app := { initialState with query := "dune" } }).2 := by
  decide

/-- C8 (amended): for every query that is not empty after trimming, the single
request of `searchBooks` asks for the search address with the URL-escaping of
the query as it stands, untrimmed; so the same query padded with a space on
each side asks for an address with `%20` on each side of the escaped query,
which is a different address. -/
theorem searchBooks_request (r : Response) (w : World) (h : trim w.app.query ≠ "") :
    (searchBooks r w).2 =
      ["https://openlibrary.org/search.json?q=" ++ encodeURIComponent w.app.query
        ++ "&limit=12"] ∧
    (searchBooks r { w with app := { w.app with query := " " ++ w.app.query ++ " " } }).2 =
      ["https://openlibrary.org/search.json?q=%20" ++ encodeURIComponent w.app.query
        ++ "%20&limit=12"] ∧
    (searchBooks r { w with app := { w.app with query := " " ++ w.app.query ++ " " } }).2 ≠
      (searchBooks r w).2 := by
  have hpad : trim (" " ++ w.app.query ++ " ") ≠ "" := by
    rw [trim_pad]
    exact h
  have h1 : (searchBooks r w).2 = [searchUrl w.app.query] := by
    simp [searchBooks, searchBooksStart, h]
  have h2 : (searchBooks r { w with app := { w.app with query := " " ++ w.app.query ++ " " } }).2
      = [searchUrl (" " ++ w.app.query ++ " ")] := by
    simp [searchBooks, searchBooksStart, hpad]
  refine ⟨h1, ?_, ?_⟩
  · rw [h2, searchUrl_pad]
  · rw [h1, h2]
    intro heq
    exact searchUrl_pad_ne w.app.query (List.head_eq_of_cons_eq heq)

/-- C8 (witness): the query `war & peace`. -/
theorem searchBooks_request_witness :
    trim "war & peace" ≠ "" ∧
    (searchBooks Response.failure
      { initialWorld with app := { initialState with query := "war & peace" } }).2
        = ["https://openlibrary.org/search.json?q=war%20%26%20peace&limit=12"] :=
  ⟨by decide,
   ((searchBooks_request Response.failure
      { initialWorld with app := { initialState with query := "war & peace" } }
      (by decide)).1).trans (by decide)⟩

/-! ## C9: the startup effect over a stored history -/

/-- C9 (counterexample): over a stored history that is not JSON the startup
effect ends in the `SyntaxError` of `JSON.parse`: it yields no history and no
theme, although a theme is stored. -/
theorem startupEffect_malformed_counterexample :
    startupEffect { bookSearchHistory := some "not json", darkMode := some "true" } (some true)
      = Except.error JsError.SyntaxError ∧
    ¬ ∃ r, startupEffect { bookSearchHistory := some "not json", darkMode := some "true" }
        (some true) = Except.ok r := by
  have h : startupEffect { bookSearchHistory := some "not json", darkMode := some "true" }
      (some true) = Except.error JsError.SyntaxError := by rfl
  refine ⟨h, ?_⟩
  rintro ⟨r, hr⟩
  rw [h] at hr
  cases hr

/-- C9 (amended): when no history is stored, or the empty string is, the startup
effect leaves the history unset and resolves the theme; when the stored string
is not empty and `JSON.parse` accepts it, the effect sets the history to the
parsed value and resolves the theme; when `JSON.parse` rejects it, the effect
ends in that exception and resolves nothing. -/
theorem startupEffect_cases (storage : LocalStorage) (matchMedia : Option Bool) :
    (storage.bookSearchHistory = none ∨ storage.bookSearchHistory = some "" →
      startupEffect storage matchMedia =
        Except.ok { searchHistory := none, darkMode := resolveDarkMode storage matchMedia }) ∧
    (∀ raw v, storage.bookSearchHistory = some raw → raw ≠ "" → JSONparse raw = Except.ok v →
      startupEffect storage matchMedia =
        Except.ok { searchHistory := some v, darkMode := resolveDarkMode storage matchMedia }) ∧
    (∀ raw e, storage.bookSearchHistory = some raw → raw ≠ "" → JSONparse raw = Except.error e →
      startupEffect storage matchMedia = Except.error e) := by
  refine ⟨?_, ?_, ?_⟩
  · rintro (h | h) <;> simp [startupEffect, h]
  · intro raw v h hne hp
    simp [startupEffect, h, hne, hp]
  · intro raw e h hne hp
    simp [startupEffect, h, hne, hp]

/-- C9 (witness): the stored history the component writes for the single term
`dune` is parsed back and the theme is resolved. -/
theorem startupEffect_cases_witness :
    startupEffect { bookSearchHistory := some (JSONstringify ["dune"]), darkMode := none } none =
      Except.ok { searchHistory := some (Json.array [Json.string "dune"]), darkMode := false } :=
  (startupEffect_cases { bookSearchHistory := some (JSONstringify ["dune"]), darkMode := none }
      none).2.1 (JSONstringify ["dune"]) (Json.array [Json.string "dune"]) rfl (by decide) (by rfl)

/-! ## C10: when the Empty view is shown -/

/-- One event keeps the result set tied to the newest fulfilled response. -/
theorem step_preserves (s t : Sys) (e : Event) (hinv : BooksFromLastFulfilled s)
    (hstep : s.step e = some t) : BooksFromLastFulfilled t := by
  unfold BooksFromLastFulfilled at *
  cases e with
  | type value =>
    simp only [Sys.step, Option.some.injEq] at hstep
    subst hstep
    exact hinv
  | clear =>
    simp only [Sys.step] at hstep
    split_ifs at hstep
    simp only [Option.some.injEq] at hstep
    subst hstep
    exact hinv
  | submit =>
    simp only [Sys.step, searchBooksStart] at hstep
    split_ifs at hstep <;>
    · simp only [Option.some.injEq] at hstep
      subst hstep
      exact hinv
  | settle r =>
    simp only [Sys.step] at hstep
    split_ifs at hstep
    simp only [Option.some.injEq] at hstep
    subst hstep
    cases r with
    | success docs => simp [searchBooksSettle, lastFulfilled]
    | failure => simpa [searchBooksSettle, lastFulfilled] using hinv
  | select book =>
    simp only [Sys.step] at hstep
    split_ifs at hstep
    simp only [Option.some.injEq] at hstep
    subst hstep
    exact hinv
  | close =>
    simp only [Sys.step] at hstep
    split_ifs at hstep
    simp only [Option.some.injEq] at hstep
    subst hstep
    exact hinv

/-- A sequence of events keeps it too. -/
theorem run_preserves (es : List Event) :
    ∀ s t : Sys, BooksFromLastFulfilled s → s.run es = some t → BooksFromLastFulfilled t := by
  induction es with
  | nil =>
    intro s t hinv hrun
    simp only [Sys.run, Option.some.injEq] at hrun
    subst hrun
    exact hinv
  | cons e es ih =>
    intro s t hinv hrun
    simp only [Sys.run] at hrun
    cases hs : s.step e with
    | none => simp [hs] at hrun
    | some u =>
      rw [hs] at hrun
      exact ih u t (step_preserves s u e hinv hs) hrun

/-- The Empty branch of the conditional, spelled out. -/
theorem mainContent_empty_iff (a : AppState) :
    mainContent a = Render.shown View.Empty ↔
      a.query ≠ "" ∧ a.books = [] ∧ a.loading = false ∧ a.error = "" ∧ a.selectedBook = none := by
  obtain ⟨query, books, loading, error, selectedBook, dm, hist, sh, sf⟩ := a
  cases loading <;> cases books <;> cases selectedBook <;>
    by_cases he : error = "" <;> by_cases hq : query = "" <;>
    simp [mainContent, mainBranch, he, hq]

/-- C10 (counterexample): typing `a` into the search input of the freshly
mounted component, with no search ever submitted and no response arrived, shows
the Empty view. -/
theorem typing_shows_empty_counterexample :
    ∃ t, Sys.init.run [Event.type "a"] = some t ∧ mainContent t.world.app = Render.shown View.Empty ∧
      t.submitted = [] ∧ t.settled = [] ∧ someFulfilledEmpty t.settled = false :=
  ⟨{ Sys.init with world := { initialWorld with app := { initialState with query := "a" } } },
    by decide, by decide, rfl, rfl, rfl⟩

/-- C10 (amended): in every state reachable from the mounted component by the
user events and the arrival of responses, the Empty view is shown exactly when
the query text is not empty, the result set is empty, and there is no request
loading, no error and no selected book; when it is shown, no fulfilled response
has arrived yet or the newest one held no record; and typing a text that is not
empty while the Welcome view is shown brings up the Empty view with no search
submitted. -/
theorem empty_view_reachable (s : Sys) (h : Reachable s) :
    (mainContent s.world.app = Render.shown View.Empty ↔
      s.world.app.query ≠ "" ∧ s.world.app.books = [] ∧ s.world.app.loading = false ∧
      s.world.app.error = "" ∧ s.world.app.selectedBook = none) ∧
    (mainContent s.world.app = Render.shown View.Empty →
      lastFulfilled s.settled = none ∨ lastFulfilled s.settled = some []) ∧
    (∀ value : String, value ≠ "" → mainContent s.world.app = Render.shown View.Welcome →
      ∃ t, s.step (Event.type value) = some t ∧ mainContent t.world.app = Render.shown View.Empty ∧
        t.submitted = s.submitted ∧ t.settled = s.settled ∧ t.pending = s.pending) := by
  obtain ⟨es, hes⟩ := h
  have hinit : BooksFromLastFulfilled Sys.init := by
    unfold BooksFromLastFulfilled
    rfl
  have hinv : BooksFromLastFulfilled s := run_preserves es Sys.init s hinit hes
  refine ⟨mainContent_empty_iff s.world.app, ?_, ?_⟩
  · intro hview
    have hb := ((mainContent_empty_iff s.world.app).mp hview).2.1
    unfold BooksFromLastFulfilled at hinv
    rw [hb] at hinv
    cases hl : lastFulfilled s.settled with
    | none => exact Or.inl rfl
    | some docs =>
      rw [hl] at hinv
      simp only [Option.getD_some] at hinv
      exact Or.inr (by rw [← hinv])
  · intro value hv hview
    refine ⟨_, rfl, ?_, rfl, rfl, rfl⟩
    rw [mainContent_empty_iff]
    obtain ⟨⟨⟨query, books, loading, error, selectedBook, dm, hist, sh, sf⟩, st⟩, pd, sb, se⟩ := s
    cases loading <;> cases books <;> cases selectedBook <;>
      by_cases he : error = "" <;> by_cases hq : query = "" <;>
      simp_all [mainContent, mainBranch]

/-- C10 (witness): after typing `zzzqqq`, submitting and a fulfilled response
with no record, the Empty view is shown and the newest fulfilled response held
no record. -/
theorem empty_view_reachable_witness :
    Reachable zzzqqqSys ∧ mainContent zzzqqqSys.world.app = Render.shown View.Empty ∧
    (lastFulfilled zzzqqqSys.settled = none ∨ lastFulfilled zzzqqqSys.settled = some []) :=
  have hr : Reachable zzzqqqSys :=
    ⟨[Event.type "zzzqqq", Event.submit, Event.settle (Response.success (some []))], by decide⟩
  ⟨hr, by decide, (empty_view_reachable zzzqqqSys hr).2.1 (by decide)⟩

end BookFinder
